import Mathlib

/-!
Verification of the golf audit gateway (JSON-RPC forwarding proxy with audit
logging). The definitions below are a shallow embedding of the Go sources:
`internal/gateway/gateway.go`, `internal/database/database.go` (including the
dual-write coordinator) and `internal/database/tinybird.go`, together with the
data model of `internal/types`.

Strings are modelled as Lean strings; the bodies and header values handled by
the claims are ASCII, for which Go's byte-oriented string operations agree
with the character-oriented model used here.
-/

namespace Golf

/-! ### Go standard-library string primitives used by the sources -/

/-- Go `unicode.IsSpace`: the Unicode White_Space property
(Latin-1 fast path plus the White_Space code points). -/
def goIsSpace (c : Char) : Bool :=
  let n := c.toNat
  n == 0x09 || n == 0x0A || n == 0x0B || n == 0x0C || n == 0x0D || n == 0x20 ||
  n == 0x85 || n == 0xA0 || n == 0x1680 ||
  (0x2000 ≤ n && n ≤ 0x200A) || n == 0x2028 || n == 0x2029 ||
  n == 0x202F || n == 0x205F || n == 0x3000

/-- Go `strings.HasPrefix`. -/
def goHasPrefix (s pre : String) : Bool :=
  pre.data.isPrefixOf s.data

/-- Character-list splitter underlying Go `strings.Split` with a
one-character separator: every occurrence of the separator starts a new
piece, empty pieces included. -/
def splitChar (c : Char) : List Char → List (List Char)
  | [] => [[]]
  | x :: xs =>
    let r := splitChar c xs
    if x = c then [] :: r
    else
      match r with
      | [] => [[x]]
      | y :: ys => (x :: y) :: ys

/-- Go `strings.Split(s, "\n")`. -/
def goSplitNewline (s : String) : List String :=
  (splitChar (Char.ofNat 10) s.data).map String.mk

/-- Go `strings.TrimSpace`. -/
def goTrimSpace (s : String) : String :=
  String.mk (((s.data.dropWhile goIsSpace).reverse.dropWhile goIsSpace).reverse)

/-- Go `strings.TrimPrefix`. -/
def goTrimPrefix (s pre : String) : String :=
  if goHasPrefix s pre then String.mk (s.data.drop pre.data.length) else s

/-- Go `strconv.Atoi` digit run: value of a nonempty all-digit string. -/
def parseDigits : List Char → Option Nat
  | [] => none
  | cs =>
    if cs.all (fun c => c.isDigit) then
      some (cs.foldl (fun acc c => acc * 10 + (c.toNat - 48)) 0)
    else none

/-- Go `strconv.Atoi` on a 64-bit platform: optional sign, decimal digits,
error (`none`) on empty input, stray characters, or int64 overflow. -/
def goAtoi (s : String) : Option Int :=
  match s.data with
  | [] => none
  | c :: rest =>
    if c = '-' then
      match parseDigits rest with
      | some n => if n ≤ 2 ^ 63 then some (-(n : Int)) else none
      | none => none
    else if c = '+' then
      match parseDigits rest with
      | some n => if n ≤ 2 ^ 63 - 1 then some (n : Int) else none
      | none => none
    else
      match parseDigits (c :: rest) with
      | some n => if n ≤ 2 ^ 63 - 1 then some (n : Int) else none
      | none => none

/-! ### SSE unwrapping (`database.go`, `unwrapSSEResponse`) -/

/-- Loop body of `unwrapSSEResponse`: append the payload of every
(trimmed) line carrying a `data: ` prefix. -/
def sseCollect (lines : List String) : String :=
  lines.foldl
    (fun acc l =>
      let t := goTrimSpace l
      if goHasPrefix t ("data: ") then acc ++ goTrimPrefix t ("data: ") else acc)
    ""

/-- Embeds `unwrapSSEResponse` from `internal/database/database.go`: strip a
server-sent-events wrapper before a response body is stored. -/
def unwrapSSEResponse (data : String) : String :=
  if !(goHasPrefix data ("event:")) && !(goHasPrefix data ("data:")) then
    data
  else
    let result := sseCollect (goSplitNewline data)
    if result = "" then data else result

example : unwrapSSEResponse ("\x7b\"a\":1\x7d") = ("\x7b\"a\":1\x7d") := by decide
example :
    unwrapSSEResponse ("event: message\ndata: \x7b\"a\":1\x7d\n\ndata: \x7b\"b\":2\x7d") =
      ("\x7b\"a\":1\x7d\x7b\"b\":2\x7d") := by decide

/-! ### Go `encoding/json` marshalling of the values the sources serialize -/

/-- The standard base64 alphabet used by Go `encoding/base64.StdEncoding`. -/
def b64Alphabet : List Char :=
  ("ABCDEFGHIJKLMNOPQRSTUVWXYZabcdefghijklmnopqrstuvwxyz0123456789+/").data

/-- Character at a 6-bit index of the standard base64 alphabet. -/
def b64Char (n : Nat) : Char :=
  b64Alphabet.getD n ('A')

/-- Go `base64.StdEncoding.EncodeToString` over byte values. -/
def base64Encode : List Nat → List Char
  | [] => []
  | [a] =>
    [b64Char (a / 4), b64Char (a % 4 * 16), '=', '=']
  | [a, b] =>
    [b64Char (a / 4), b64Char (a % 4 * 16 + b / 16), b64Char (b % 16 * 4), '=']
  | a :: b :: c :: rest =>
    b64Char (a / 4) :: b64Char (a % 4 * 16 + b / 16) ::
      b64Char (b % 16 * 4 + c / 64) :: b64Char (c % 64) :: base64Encode rest

/-- The bytes of an (ASCII) Go string. -/
def goBytes (s : String) : List Nat :=
  s.data.map Char.toNat

/-- Go `json.Marshal` applied to a value of static type `[]byte`: a JSON
string holding the standard base64 encoding of the bytes. -/
def goJSONMarshalBytes (s : String) : String :=
  String.mk ('"' :: (base64Encode (goBytes s) ++ ['"']))

/-- The `response` column value computed by
`Database.InsertAuditResponse` (`database.go`): for a non-nil body it is
`string(json.Marshal(unwrapSSEResponse(resp.Response)))`, where the result of
`unwrapSSEResponse` has static type `[]byte`; a nil body stores the empty
string. -/
def storedResponseColumn (body : Option String) : String :=
  match body with
  | none => ""
  | some b => goJSONMarshalBytes (unwrapSSEResponse b)

/-- Hex digit (lowercase, as used by Go's JSON encoder). -/
def hexDigit (n : Nat) : Char :=
  ("0123456789abcdef").data.getD n ('0')

/-- Go `encoding/json` string escaping (default HTML-safe encoder). -/
def goJSONEscapeChar (c : Char) : String :=
  if c = '"' then "\\\""
  else if c = '\\' then "\\\\"
  else if c = Char.ofNat 10 then "\\n"
  else if c = Char.ofNat 13 then "\\r"
  else if c = Char.ofNat 9 then "\\t"
  else if c.toNat < 0x20 then
    String.mk ['\\', 'u', '0', '0', hexDigit (c.toNat / 16), hexDigit (c.toNat % 16)]
  else if c = '<' then "\\u003c"
  else if c = '>' then "\\u003e"
  else if c = '&' then "\\u0026"
  else if c.toNat = 0x2028 then "\\u2028"
  else if c.toNat = 0x2029 then "\\u2029"
  else String.singleton c

/-- Escape a whole string as Go's JSON encoder does. -/
def goJSONEscape (s : String) : String :=
  String.join (s.data.map goJSONEscapeChar)

/-- Embeds `json.Marshal` of the `types.JSONRPCResponse` synthesized by
`Gateway.handleError` (`gateway.go`): `ID` is the nil interface (marshalled as
`null`, no `omitempty` on the field), `Result` is nil and omitted, `Error` is
the -32603 "Internal error" object whose `data` carries the error message.
Field order follows the struct declarations in `internal/types`. -/
def jsonrpcErrorBody (errorMsg : String) : String :=
  ("\x7b\"id\":null,\"jsonrpc\":\"2.0\",\"error\":\x7b\"code\":-32603,") ++
  ("\"message\":\"Internal error\",\"data\":\"") ++ goJSONEscape errorMsg ++
  ("\"\x7d\x7d")

/-! ### Data model (`internal/types`) and the audit store (`database.go`) -/

/-- Embeds `types.AuditRequest` (store-relevant fields; `timestamp` is modelled as a
number). -/
structure AuditRequestRec where
  timestamp : Nat
  method : String
  requestID : String
  ipAddress : String
  userAgent : String
  request : String
  headers : String
  deriving DecidableEq, Repr

/-- Embeds `types.AuditResponse`. -/
structure AuditResponseRec where
  requestID : String
  timestamp : Nat
  response : Option String
  statusCode : Nat
  processTime : Int
  error : String
  deriving DecidableEq, Repr

/-- The audit store's contents: the `audit_requests` and `audit_responses`
tables, as lists of rows in insertion order. -/
structure Store where
  requests : List AuditRequestRec
  responses : List AuditResponseRec
  deriving DecidableEq, Repr

/-- Embeds `ORDER BY timestamp DESC` comparison used by the listing queries. -/
def tsDescReq (a b : AuditRequestRec) : Prop :=
  b.timestamp ≤ a.timestamp

/-- Embeds `ORDER BY timestamp DESC` for response rows. -/
def tsDescResp (a b : AuditResponseRec) : Prop :=
  b.timestamp ≤ a.timestamp

instance : DecidableRel tsDescReq := fun a b =>
  inferInstanceAs (Decidable (b.timestamp ≤ a.timestamp))

instance : DecidableRel tsDescResp := fun a b =>
  inferInstanceAs (Decidable (b.timestamp ≤ a.timestamp))

instance : IsTotal AuditRequestRec tsDescReq :=
  ⟨fun a b => Nat.le_total b.timestamp a.timestamp⟩

instance : IsTrans AuditRequestRec tsDescReq :=
  ⟨fun _ _ _ h1 h2 => Nat.le_trans h2 h1⟩

/-- SQL `LIMIT ? OFFSET ?` with the already-resolved handler values. -/
def paginate {α : Type} (l : List α) (limit offset : Int) : List α :=
  (l.drop offset.toNat).take limit.toNat

/-- Embeds `Database.GetAuditRequests`: rows ordered by timestamp descending, then
limit/offset applied. -/
def getAuditRequests (st : Store) (limit offset : Int) : List AuditRequestRec :=
  paginate (List.insertionSort tsDescReq st.requests) limit offset

/-- Embeds `Database.GetAuditResponses`. -/
def getAuditResponses (st : Store) (limit offset : Int) : List AuditResponseRec :=
  paginate (List.insertionSort tsDescResp st.responses) limit offset

/-- The `WHERE resp.request_id IS NULL` anti-join condition of
`Database.GetOrphanedRequests`: no response row carries this request's
`request_id`. -/
def isOrphan (st : Store) (q : AuditRequestRec) : Bool :=
  !(st.responses.any (fun p => p.requestID == q.requestID))

/-- The full (unpaginated) result of the orphan query: anti-join, ordered by
request timestamp descending. -/
def orphanedFull (st : Store) : List AuditRequestRec :=
  List.insertionSort tsDescReq (st.requests.filter (isOrphan st))

/-- Embeds `Database.GetOrphanedRequests`. -/
def getOrphanedRequests (st : Store) (limit offset : Int) : List AuditRequestRec :=
  paginate (orphanedFull st) limit offset

/-! ### `Database.GetStats` (`database.go`): error rate and average time -/

/-- Embeds `SELECT COUNT(*) FROM audit_responses WHERE error IS NOT NULL AND
error != ''`. -/
def statsErrorCount (st : Store) : Nat :=
  (st.responses.filter (fun r => r.error ≠ "")).length

/-- The `error_rate` entry of `GetStats`: percentage of responses carrying an
error, `0.0` when there are no responses. Real arithmetic is modelled over
`ℚ` (exact at the inputs considered). -/
def statsErrorRate (st : Store) : ℚ :=
  if st.responses.length > 0 then
    (statsErrorCount st : ℚ) / (st.responses.length : ℚ) * 100
  else 0

/-- Embeds `SELECT AVG(process_time_ms) FROM audit_responses WHERE
process_time_ms > 0`: `none` models SQL `NULL` (no qualifying rows), in which
case `GetStats` omits the `avg_response_time_ms` key. -/
def statsAvgResponseTime (st : Store) : Option ℚ :=
  let ps := (st.responses.filter (fun r => r.processTime > 0)).map
    (fun r => r.processTime)
  if ps.isEmpty then none
  else some ((ps.sum : ℚ) / (ps.length : ℚ))

/-! ### Listing handlers (`gateway.go`): pagination parameter resolution -/

/-- The limit resolution performed identically by `GetAuditRequests`,
`GetAuditResponses`, `GetOrphanedRequests` and `GetAuditLogs` in
`gateway.go`: start from the default `50`; overwrite only when the query
parameter is present (non-empty), parses, and lies in `(0, 1000]`. -/
def resolveLimit (limitStr : String) : Int :=
  if limitStr ≠ "" then
    match goAtoi limitStr with
    | some l => if l > 0 && l ≤ 1000 then l else 50
    | none => 50
  else 50

/-- Offset resolution: default `0`, overwritten only by a parseable value
that is `≥ 0`. -/
def resolveOffset (offsetStr : String) : Int :=
  if offsetStr ≠ "" then
    match goAtoi offsetStr with
    | some o => if o ≥ 0 then o else 0
    | none => 0
  else 0

/-- Embeds `Gateway.GetAuditRequests` handler: resolved limit and offset, and the
rows obtained by passing exactly those values to the store query. -/
def getAuditRequestsHandler (st : Store) (limitStr offsetStr : String) :
    Int × Int × List AuditRequestRec :=
  let limit := resolveLimit limitStr
  let offset := resolveOffset offsetStr
  (limit, offset, getAuditRequests st limit offset)

/-- Embeds `Gateway.GetAuditResponses` handler. -/
def getAuditResponsesHandler (st : Store) (limitStr offsetStr : String) :
    Int × Int × List AuditResponseRec :=
  let limit := resolveLimit limitStr
  let offset := resolveOffset offsetStr
  (limit, offset, getAuditResponses st limit offset)

/-- Embeds `Gateway.GetOrphanedRequests` handler. -/
def getOrphanedRequestsHandler (st : Store) (limitStr offsetStr : String) :
    Int × Int × List AuditRequestRec :=
  let limit := resolveLimit limitStr
  let offset := resolveOffset offsetStr
  (limit, offset, getOrphanedRequests st limit offset)

/-! ### The forwarding pipeline (`gateway.go`) -/

/-- Per-call environment of `Gateway.ProxyJSONRPC`: configuration, the
generated request ID, extracted caller metadata, whether a Tinybird logger is
configured, the success/failure of each persistence call (the pipeline only
logs on failure), and the wall-clock values. -/
structure PipelineEnv where
  targetURL : String
  requestID : String
  clientIP : String
  userAgent : String
  tinybirdConfigured : Bool
  dbReqOk : Bool
  dbRespOk : Bool
  tbReqOk : Bool
  tbRespOk : Bool
  now : Nat
  elapsed : Int
  deriving Repr

/-- What the upstream forward attempt does, as seen by `forwardRequest`:
`http.NewRequest` failure, transport failure of `httpClient.Do`, body read
failure, or a successful response. -/
inductive UpstreamOutcome where
  | constructFailure
  | transportFailure (msg : String)
  | readFailure
  | success (statusCode : Nat) (headers : List (String × String)) (body : String)
  deriving DecidableEq, Repr

/-- The HTTP response written back to the original caller. -/
structure CallerResponse where
  statusCode : Nat
  headers : List (String × String)
  body : String
  deriving DecidableEq, Repr

/-- Observable effects of one pipeline run: the insert calls issued against
the primary store and the Tinybird sink (records as handed to the insert
functions), the logged error lines, and the caller-visible response. -/
structure PipelineResult where
  dbRequests : List AuditRequestRec
  tbRequests : List AuditRequestRec
  dbResponses : List AuditResponseRec
  tbResponses : List AuditResponseRec
  logs : List String
  caller : CallerResponse
  deriving Repr

/-- Embeds `method` extraction in `ProxyJSONRPC`: the parse result of the body as a
JSON-RPC envelope (modelled as an oracle, since JSON parsing is external to
the pipeline logic); sentinel `"unknown"` on parse failure or empty method. -/
def extractMethod (parsed : Option String) : String :=
  match parsed with
  | some m => if m = "" then "unknown" else m
  | none => "unknown"

/-- Embeds `Gateway.handleError`: synthesize the -32603 envelope, persist it as the
AuditResponse (primary store, then Tinybird when configured; failures only
logged), and answer the caller with the given status code and the envelope
under `Content-Type: application/json`. -/
def handleError (env : PipelineEnv) (errorMsg : String) (statusCode : Nat)
    (areq : AuditRequestRec) (reqLogs : List String) : PipelineResult :=
  let body := jsonrpcErrorBody errorMsg
  let aresp : AuditResponseRec :=
    { requestID := env.requestID
      timestamp := env.now
      response := some body
      statusCode := statusCode
      processTime := env.elapsed
      error := errorMsg }
  { dbRequests := [areq]
    tbRequests := if env.tinybirdConfigured then [areq] else []
    dbResponses := [aresp]
    tbResponses := if env.tinybirdConfigured then [aresp] else []
    logs := reqLogs ++
      (if env.dbRespOk then [] else ["Failed to insert audit response"]) ++
      (if env.tinybirdConfigured && !env.tbRespOk then
        ["Failed to insert audit response to Tinybird"] else [])
    caller :=
      { statusCode := statusCode
        headers := [("Content-Type", "application/json")]
        body := body } }

/-- Embeds `Gateway.ProxyJSONRPC` together with `forwardRequest`, after the body has
been read successfully: write the AuditRequest (store first, then Tinybird,
both attempted unconditionally, failures only logged), short-circuit through
`handleError` when no target URL is configured, otherwise forward and either
report the failure through `handleError` (500/502/500) or persist and relay
the upstream response unmodified. -/
def runPipeline (env : PipelineEnv) (parsedMethod : Option String)
    (body : String) (headersJSON : String) (outcome : UpstreamOutcome) :
    PipelineResult :=
  let areq : AuditRequestRec :=
    { timestamp := env.now
      method := extractMethod parsedMethod
      requestID := env.requestID
      ipAddress := env.clientIP
      userAgent := env.userAgent
      request := body
      headers := headersJSON }
  let reqLogs :=
    (if env.dbReqOk then [] else ["Failed to insert audit request"]) ++
    (if env.tinybirdConfigured && !env.tbReqOk then
      ["Failed to insert audit request to Tinybird"] else [])
  if env.targetURL = "" then
    handleError env ("No target URL configured") 503 areq reqLogs
  else
    match outcome with
    | .constructFailure =>
      handleError env ("Failed to create forward request") 500 areq reqLogs
    | .transportFailure msg =>
      handleError env ("Failed to forward request: " ++ msg) 502 areq reqLogs
    | .readFailure =>
      handleError env ("Failed to read response") 500 areq reqLogs
    | .success statusCode headers respBody =>
      let aresp : AuditResponseRec :=
        { requestID := env.requestID
          timestamp := env.now
          response := some respBody
          statusCode := statusCode
          processTime := env.elapsed
          error := "" }
      { dbRequests := [areq]
        tbRequests := if env.tinybirdConfigured then [areq] else []
        dbResponses := [aresp]
        tbResponses := if env.tinybirdConfigured then [aresp] else []
        logs := reqLogs ++
          (if env.dbRespOk then [] else ["Failed to insert audit response"]) ++
          (if env.tinybirdConfigured && !env.tbRespOk then
            ["Failed to insert audit response to Tinybird"] else [])
        caller :=
          { statusCode := statusCode
            headers := headers
            body := respBody } }

/-! ### Dual-write coordinator (`DualDatabase`, `database.go`) -/

/-- Embeds `DualDatabase.InsertAuditRequest` / `InsertAuditResponse` control flow:
given the outcome of the primary (SQLite) insert and of the Tinybird insert
(`none` = success, `some e` = failure), return the error propagated to the
caller of the write and whether the Tinybird write was attempted. A primary
failure returns immediately; a Tinybird failure is only logged. -/
def dualInsert (primaryErr : Option String) (sinkErr : Option String) :
    Option String × Bool :=
  match primaryErr with
  | some e => (some e, false)
  | none =>
    match sinkErr with
    | some _ => (none, true)
    | none => (none, true)

/-! ### Concrete fixtures used by witnesses and counterexamples -/

/-- The `ping` request body of the spec's scenario. -/
def pingReqBody : String :=
  "\x7b\"jsonrpc\":\"2.0\",\"method\":\"ping\",\"id\":1\x7d"

/-- The `pong` upstream response body of the spec's scenario. -/
def pingRespBody : String :=
  "\x7b\"jsonrpc\":\"2.0\",\"result\":\x7b\"pong\":true\x7d,\"id\":1\x7d"

/-- A pipeline environment with no upstream target configured. -/
def envNoTarget : PipelineEnv :=
  { targetURL := ""
    requestID := "req_1700000000_1"
    clientIP := "10.0.0.7"
    userAgent := "curl/8.0"
    tinybirdConfigured := false
    dbReqOk := true
    dbRespOk := true
    tbReqOk := true
    tbRespOk := true
    now := 1000
    elapsed := 5 }

/-- A pipeline environment with an upstream target configured. -/
def envWithTarget : PipelineEnv :=
  { envNoTarget with targetURL := "http://upstream:9090/rpc" }

/-- Target configured, Tinybird configured, and a failing primary store
insert for the request record. -/
def envPrimaryReqFails : PipelineEnv :=
  { envWithTarget with tinybirdConfigured := true, dbReqOk := false }

/-- A store with one response carrying an error and one without, both with
positive process times. -/
def storeTwoResponses : Store :=
  { requests := []
    responses :=
      [ { requestID := "r1", timestamp := 10, response := some ("\x7b\x7d")
          statusCode := 502, processTime := 4, error := "boom" }
      , { requestID := "r2", timestamp := 11, response := some ("\x7b\x7d")
          statusCode := 200, processTime := 6, error := "" } ] }

/-- An orphaned request: no response row carries its `requestID`. -/
def reqOrphan : AuditRequestRec :=
  { timestamp := 20, method := "ping", requestID := "rA", ipAddress := "ip"
    userAgent := "ua", request := "\x7b\x7d", headers := "\x7b\x7d" }

/-- A matched request: a response row carries its `requestID`. -/
def reqMatched : AuditRequestRec :=
  { timestamp := 21, method := "echo", requestID := "rB", ipAddress := "ip"
    userAgent := "ua", request := "\x7b\x7d", headers := "\x7b\x7d" }

/-- Store containing one orphaned and one matched request. -/
def storeOrphanMix : Store :=
  { requests := [reqOrphan, reqMatched]
    responses :=
      [ { requestID := "rB", timestamp := 22, response := some ("\x7b\x7d")
          statusCode := 200, processTime := 3, error := "" } ] }

/-! ### Claim-worded definitions (for refinement comparison only) -/

/-- Modelled from the claim's words (C6): error rate as the plain quotient of
error-tagged responses over total responses, `0` when there are none. -/
def claimErrorRateC6 (st : Store) : ℚ :=
  if st.responses.length > 0 then
    (statsErrorCount st : ℚ) / (st.responses.length : ℚ)
  else 0

/-- Modelled from the claim's words (C6): average `processTimeMillis` over
exactly the responses whose `processTimeMillis` is strictly positive, absent
when no response qualifies. -/
def claimAvgProcessTimeC6 (st : Store) : Option ℚ :=
  let qs := st.responses.filter (fun r => r.processTime > 0)
  if qs.isEmpty then none
  else some ((qs.map (fun r => (r.processTime : ℚ))).sum / (qs.length : ℚ))

/-! ### Helper lemmas -/

/-- A character-list pattern matching an initial segment still matches after
extending the list on the right. -/
theorem charList_isPrefixOf_append :
    ∀ (p a r : List Char), p.isPrefixOf a = true → p.isPrefixOf (a ++ r) = true
  | [], _, _, _ => by simp [List.isPrefixOf]
  | _ :: _, [], _, h => by simp [List.isPrefixOf] at h
  | x :: xs, y :: ys, r, h => by
    simp only [List.isPrefixOf, Bool.and_eq_true, beq_iff_eq] at h ⊢
    exact ⟨h.1, charList_isPrefixOf_append xs ys r h.2⟩

/-- The check `goHasPrefix` is stable under appending on the right. -/
theorem goHasPrefix_append_left (a r p : String) (h : goHasPrefix a p = true) :
    goHasPrefix (a ++ r) p = true := by
  unfold goHasPrefix at h ⊢
  rw [String.data_append]
  exact charList_isPrefixOf_append p.data a.data r.data h

/-- A string with a nonempty left part of an append is nonempty. -/
theorem string_append_ne_empty (s t : String) (h : s ≠ "") : s ++ t ≠ "" := by
  intro he
  apply h
  have hd := congrArg String.data he
  rw [String.data_append] at hd
  exact String.ext (List.append_eq_nil.mp hd).1

/-- If no line of the input carries a (trimmed) `data: ` marker, the
collection loop of `unwrapSSEResponse` leaves its accumulator unchanged. -/
theorem sseCollect_foldl_const (ls : List String) (acc : String)
    (h : ∀ l ∈ ls, goHasPrefix (goTrimSpace l) ("data: ") = false) :
    ls.foldl
      (fun acc l =>
        let t := goTrimSpace l
        if goHasPrefix t ("data: ") then acc ++ goTrimPrefix t ("data: ") else acc)
      acc = acc := by
  induction ls generalizing acc with
  | nil => rfl
  | cons l ls ih =>
    have hl := h l (List.mem_cons_self l ls)
    have hrest : ∀ m ∈ ls, goHasPrefix (goTrimSpace m) ("data: ") = false :=
      fun m hm => h m (List.mem_cons_of_mem l hm)
    simp only [List.foldl_cons, hl]
    simpa [hl] using ih acc hrest

/-- With no `data: ` line, `sseCollect` returns the empty string. -/
theorem sseCollect_eq_empty (ls : List String)
    (h : ∀ l ∈ ls, goHasPrefix (goTrimSpace l) ("data: ") = false) :
    sseCollect ls = "" :=
  sseCollect_foldl_const ls "" h

/-- Casting an integer list sum into `ℚ` equals summing the casts. -/
theorem intCast_list_sum (l : List Int) :
    ((l.sum : Int) : ℚ) = (l.map (fun x : Int => (x : ℚ))).sum := by
  induction l with
  | nil => simp
  | cons a l ih => simp [ih]

/-! ### Claim theorems -/

/-- Claim C5: `unwrapSSEResponse` is the identity on every body that does not
begin with an `event:` or `data:` marker; on the mixed SSE example it returns
the verbatim concatenation of the `data:` payload lines; and a body that
begins with an SSE marker but contains no `data: ` line is returned
unchanged. -/
theorem c5_sse_normalization (s t : String)
    (hs1 : goHasPrefix s ("event:") = false)
    (hs2 : goHasPrefix s ("data:") = false)
    (ht1 : goHasPrefix t ("event:") = true ∨ goHasPrefix t ("data:") = true)
    (ht2 : ∀ l ∈ goSplitNewline t, goHasPrefix (goTrimSpace l) ("data: ") = false) :
    unwrapSSEResponse s = s ∧
    unwrapSSEResponse ("event: message\ndata: \x7b\"a\":1\x7d\n\ndata: \x7b\"b\":2\x7d") =
      ("\x7b\"a\":1\x7d\x7b\"b\":2\x7d") ∧
    unwrapSSEResponse t = t := by
  refine ⟨?_, by decide, ?_⟩
  · unfold unwrapSSEResponse
    simp [hs1, hs2]
  · have hcol : sseCollect (goSplitNewline t) = "" := sseCollect_eq_empty _ ht2
    unfold unwrapSSEResponse
    rcases ht1 with h | h <;> simp [h, hcol]

/-- Witness for C5 at concrete inputs: plain JSON is unchanged, the SSE
example concatenates, and an SSE body without any `data: ` line is
unchanged. -/
theorem c5_sse_normalization_witness :
    unwrapSSEResponse ("\x7b\"a\":1\x7d") = ("\x7b\"a\":1\x7d") ∧
    unwrapSSEResponse ("event: message\ndata: \x7b\"a\":1\x7d\n\ndata: \x7b\"b\":2\x7d") =
      ("\x7b\"a\":1\x7d\x7b\"b\":2\x7d") ∧
    unwrapSSEResponse ("event: ping\n\n") = ("event: ping\n\n") :=
  c5_sse_normalization ("\x7b\"a\":1\x7d") ("event: ping\n\n")
    (by decide) (by decide) (by decide) (by decide)

/-- Claim C3 (code bug): for the spec's plain-JSON upstream body the SSE
normalization is the identity, yet the value `InsertAuditResponse` stores in
the `response` column is `json.Marshal` of a `[]byte` value — the
base64-encoded JSON string of the bytes — not the bytes themselves. -/
theorem c3_stored_body_is_base64 :
    unwrapSSEResponse pingRespBody = pingRespBody ∧
    storedResponseColumn (some pingRespBody) =
      ("\"eyJqc29ucnBjIjoiMi4wIiwicmVzdWx0Ijp7InBvbmciOnRydWV9LCJpZCI6MX0=\"") ∧
    storedResponseColumn (some pingRespBody) ≠ pingRespBody := by
  refine ⟨by decide, by decide, by decide⟩

/-- Claim C7: `limit` values `0`, `-5` and `5000` all resolve to the default
`50`, `offset=-1` resolves to `0`, and every listing handler passes exactly
the resolved values to its store query. -/
theorem c7_pagination_bounds (st : Store) :
    resolveLimit ("0") = 50 ∧ resolveLimit ("-5") = 50 ∧
    resolveLimit ("5000") = 50 ∧ resolveOffset ("-1") = 0 ∧
    getAuditRequestsHandler st ("0") ("-1") = (50, 0, getAuditRequests st 50 0) ∧
    getAuditRequestsHandler st ("-5") ("-1") = (50, 0, getAuditRequests st 50 0) ∧
    getAuditRequestsHandler st ("5000") ("-1") = (50, 0, getAuditRequests st 50 0) ∧
    getAuditResponsesHandler st ("0") ("-1") = (50, 0, getAuditResponses st 50 0) ∧
    getAuditResponsesHandler st ("-5") ("-1") = (50, 0, getAuditResponses st 50 0) ∧
    getAuditResponsesHandler st ("5000") ("-1") = (50, 0, getAuditResponses st 50 0) ∧
    getOrphanedRequestsHandler st ("0") ("-1") = (50, 0, getOrphanedRequests st 50 0) ∧
    getOrphanedRequestsHandler st ("-5") ("-1") = (50, 0, getOrphanedRequests st 50 0) ∧
    getOrphanedRequestsHandler st ("5000") ("-1") = (50, 0, getOrphanedRequests st 50 0) := by
  have h0 : resolveLimit ("0") = 50 := by decide
  have h5 : resolveLimit ("-5") = 50 := by decide
  have h1000 : resolveLimit ("5000") = 50 := by decide
  have hoff : resolveOffset ("-1") = 0 := by decide
  refine ⟨h0, h5, h1000, hoff, ?_, ?_, ?_, ?_, ?_, ?_, ?_, ?_, ?_⟩ <;>
    simp [getAuditRequestsHandler, getAuditResponsesHandler,
      getOrphanedRequestsHandler, h0, h5, h1000, hoff]

/-- C6 counterexample: with one error-tagged response out of two, `GetStats`
computes an error rate of `50` (a percentage), not the plain quotient `1/2`
asserted by the claim. -/
theorem c6_counterexample :
    statsErrorRate storeTwoResponses = 50 ∧
    claimErrorRateC6 storeTwoResponses = 1 / 2 ∧
    statsErrorRate storeTwoResponses ≠ claimErrorRateC6 storeTwoResponses := by
  have hc : statsErrorCount storeTwoResponses = 1 := by decide
  have hl : storeTwoResponses.responses.length = 2 := by decide
  have h1 : statsErrorRate storeTwoResponses = 50 := by
    unfold statsErrorRate
    rw [hc, hl]
    norm_num
  have h2 : claimErrorRateC6 storeTwoResponses = 1 / 2 := by
    unfold claimErrorRateC6
    rw [hc, hl]
    norm_num
  refine ⟨h1, h2, ?_⟩
  rw [h1, h2]
  norm_num

/-- Claim C6 as amended: the error rate is the percentage — the quotient of
error-tagged responses over total responses multiplied by 100 — and `0` when
there are no responses; the average process time is taken exactly over the
responses with strictly positive `processTimeMillis`. -/
theorem c6_stats_amended (st : Store) :
    (st.responses.length > 0 →
      statsErrorRate st = 100 * claimErrorRateC6 st) ∧
    (st.responses.length = 0 → statsErrorRate st = 0) ∧
    statsAvgResponseTime st = claimAvgProcessTimeC6 st := by
  refine ⟨?_, ?_, ?_⟩
  · intro h
    unfold statsErrorRate claimErrorRateC6
    rw [if_pos h, if_pos h]
    ring
  · intro h
    unfold statsErrorRate
    simp [h]
  · unfold statsAvgResponseTime claimAvgProcessTimeC6
    cases hq : st.responses.filter (fun r => r.processTime > 0) with
    | nil => simp
    | cons a l =>
      simp [hq, intCast_list_sum, List.map_map, Function.comp]

/-- Witness for C6's amended statement at a concrete store. -/
theorem c6_stats_amended_witness :
    statsErrorRate storeTwoResponses = 100 * claimErrorRateC6 storeTwoResponses :=
  (c6_stats_amended storeTwoResponses).1 (by decide)

/-- Claim C8: with no upstream target configured the pipeline short-circuits
after the AuditRequest write — for any forward outcome the caller receives
`503` with the synthesized `-32603` "Internal error" JSON-RPC envelope, and
an AuditResponse with status `503`, that body, and the same `requestID` as
the AuditRequest is handed to the store. -/
theorem c8_no_target_short_circuit (env : PipelineEnv) (pm : Option String)
    (b hj : String) (o : UpstreamOutcome) (h : env.targetURL = "") :
    (runPipeline env pm b hj o).caller.statusCode = 503 ∧
    (runPipeline env pm b hj o).caller.body =
      jsonrpcErrorBody ("No target URL configured") ∧
    jsonrpcErrorBody ("No target URL configured") =
      ("\x7b\"id\":null,\"jsonrpc\":\"2.0\",\"error\":\x7b\"code\":-32603,\"message\":\"Internal error\",\"data\":\"No target URL configured\"\x7d\x7d") ∧
    (runPipeline env pm b hj o).dbResponses =
      [{ requestID := env.requestID, timestamp := env.now,
         response := some (jsonrpcErrorBody ("No target URL configured")),
         statusCode := 503, processTime := env.elapsed,
         error := "No target URL configured" }] ∧
    (runPipeline env pm b hj o).dbRequests.map (fun r => r.requestID) =
      [env.requestID] := by
  refine ⟨?_, ?_, by decide, ?_, ?_⟩ <;> simp [runPipeline, handleError, h]

/-- Witness for C8: the scenario run with no target configured. -/
theorem c8_no_target_short_circuit_witness :
    (runPipeline envNoTarget (some ("ping")) pingReqBody ("\x7b\x7d")
        (.success 200 [] pingRespBody)).caller.statusCode = 503 :=
  (c8_no_target_short_circuit envNoTarget (some ("ping")) pingReqBody ("\x7b\x7d")
    (.success 200 [] pingRespBody) (by decide)).1

/-- C1 counterexample: on a transport failure the pipeline returns `502`
whose body IS the synthesized JSON-RPC error envelope produced by
`handleError` — not a bare body-less `502` as the claim states. -/
theorem c1_counterexample :
    (runPipeline envWithTarget (some ("ping")) pingReqBody ("\x7b\x7d")
        (.transportFailure ("connect: connection refused"))).caller.statusCode = 502 ∧
    (runPipeline envWithTarget (some ("ping")) pingReqBody ("\x7b\x7d")
        (.transportFailure ("connect: connection refused"))).caller.body =
      jsonrpcErrorBody ("Failed to forward request: connect: connection refused") ∧
    goHasPrefix
      (runPipeline envWithTarget (some ("ping")) pingReqBody ("\x7b\x7d")
        (.transportFailure ("connect: connection refused"))).caller.body
      ("\x7b\"id\":null,\"jsonrpc\":\"2.0\",\"error\"") = true ∧
    (runPipeline envWithTarget (some ("ping")) pingReqBody ("\x7b\x7d")
        (.transportFailure ("connect: connection refused"))).caller.body ≠ "" := by
  refine ⟨by decide, by decide, by decide, by decide⟩

/-- Claim C1 as amended: on a transport failure the pipeline persists an
AuditResponse with status `502` and the non-empty transport error text, and
answers the caller with `502` carrying the same synthesized JSON-RPC error
envelope used by the no-target path (not a body-less response). -/
theorem c1_transport_failure_502 (env : PipelineEnv) (pm : Option String)
    (b hj msg : String) (h : env.targetURL ≠ "") :
    (runPipeline env pm b hj (.transportFailure msg)).caller.statusCode = 502 ∧
    (runPipeline env pm b hj (.transportFailure msg)).caller.body =
      jsonrpcErrorBody ("Failed to forward request: " ++ msg) ∧
    (runPipeline env pm b hj (.transportFailure msg)).dbResponses =
      [{ requestID := env.requestID, timestamp := env.now,
         response := some (jsonrpcErrorBody ("Failed to forward request: " ++ msg)),
         statusCode := 502, processTime := env.elapsed,
         error := ("Failed to forward request: " ++ msg) }] ∧
    ("Failed to forward request: " ++ msg) ≠ "" := by
  refine ⟨?_, ?_, ?_, string_append_ne_empty _ _ (by decide)⟩ <;>
    simp [runPipeline, handleError, h]

/-- Witness for C1's amended statement at a concrete transport failure. -/
theorem c1_transport_failure_502_witness :
    (runPipeline envWithTarget (some ("ping")) pingReqBody ("\x7b\x7d")
        (.transportFailure ("i/o timeout"))).caller.statusCode = 502 :=
  (c1_transport_failure_502 envWithTarget (some ("ping")) pingReqBody ("\x7b\x7d")
    ("i/o timeout") (by decide)).1

/-- C2 counterexample: a run whose primary AuditRequest insert fails (the
failure is logged) while a Tinybird sink is configured — the pipeline still
attempts the sink write for that record, contradicting the claim that the
sink is invoked only after the primary insert succeeds. -/
theorem c2_counterexample :
    envPrimaryReqFails.dbReqOk = false ∧
    envPrimaryReqFails.tinybirdConfigured = true ∧
    (runPipeline envPrimaryReqFails (some ("ping")) pingReqBody ("\x7b\x7d")
        (.success 200 [] pingRespBody)).tbRequests.length = 1 ∧
    (runPipeline envPrimaryReqFails (some ("ping")) pingReqBody ("\x7b\x7d")
        (.success 200 [] pingRespBody)).logs.head? =
      some ("Failed to insert audit request") := by
  refine ⟨by decide, by decide, by decide, by decide⟩

/-- Claim C2 as amended: the Dual-Write Coordinator's insert does skip the
sink when the primary store fails and never propagates a sink failure; the
pipeline itself, however, attempts the sink write exactly when a sink is
configured, independently of the primary insert's outcome, and sink outcomes
never alter the caller-visible response or the primary-store writes. -/
theorem c2_dual_write_policy (e : String) (se : Option String)
    (env : PipelineEnv) (pm : Option String) (b hj : String)
    (o : UpstreamOutcome) (x y : Bool) :
    dualInsert (some e) se = (some e, false) ∧
    dualInsert none se = (none, true) ∧
    (runPipeline env pm b hj o).tbRequests.length =
      (if env.tinybirdConfigured then 1 else 0) ∧
    (runPipeline { env with tbReqOk := x, tbRespOk := y } pm b hj o).caller =
      (runPipeline env pm b hj o).caller ∧
    (runPipeline { env with tbReqOk := x, tbRespOk := y } pm b hj o).dbRequests =
      (runPipeline env pm b hj o).dbRequests ∧
    (runPipeline { env with tbReqOk := x, tbRespOk := y } pm b hj o).dbResponses =
      (runPipeline env pm b hj o).dbResponses := by
  refine ⟨rfl, by cases se <;> rfl, ?_, ?_, ?_, ?_⟩ <;>
    cases o <;> by_cases h : env.targetURL = "" <;>
      simp [runPipeline, handleError, h] <;>
        cases hb : env.tinybirdConfigured <;> simp

/-- C4: when the upstream forward and body read succeed, the caller receives
exactly the upstream's status code, headers and bytes; the record handed to
the store carries the raw bytes, and SSE normalization enters only the
store's column value. -/
theorem c4_caller_gets_exact_upstream (env : PipelineEnv) (pm : Option String)
    (b hj : String) (c : Nat) (hdrs : List (String × String)) (ub : String)
    (h : env.targetURL ≠ "") :
    (runPipeline env pm b hj (.success c hdrs ub)).caller =
      { statusCode := c, headers := hdrs, body := ub } ∧
    (runPipeline env pm b hj (.success c hdrs ub)).dbResponses =
      [{ requestID := env.requestID, timestamp := env.now, response := some ub,
         statusCode := c, processTime := env.elapsed, error := "" }] ∧
    storedResponseColumn (some ub) = goJSONMarshalBytes (unwrapSSEResponse ub) := by
  refine ⟨?_, ?_, rfl⟩ <;> simp [runPipeline, h]

/-- Witness for C4 at a concrete successful relay. -/
theorem c4_caller_gets_exact_upstream_witness :
    (runPipeline envWithTarget (some ("ping")) pingReqBody ("\x7b\x7d")
        (.success 200 [("Content-Type", "application/json")] pingRespBody)).caller =
      { statusCode := 200, headers := [("Content-Type", "application/json")],
        body := pingRespBody } :=
  (c4_caller_gets_exact_upstream envWithTarget (some ("ping")) pingReqBody
    ("\x7b\x7d") 200 [("Content-Type", "application/json")] pingRespBody
    (by decide)).1

/-- Claim C9: for every store state, the orphan query's result contains a
request exactly when no response row carries its `requestID`; the result is
ordered by request timestamp descending; the paginated result is the
limit/offset window of that list, and everything in the window is a genuine
orphan. -/
theorem c9_orphans_exact (st : Store) (q : AuditRequestRec) (lim off : Int) :
    (q ∈ orphanedFull st ↔
      q ∈ st.requests ∧ ∀ p ∈ st.responses, p.requestID ≠ q.requestID) ∧
    (orphanedFull st).Sorted tsDescReq ∧
    getOrphanedRequests st lim off =
      ((orphanedFull st).drop off.toNat).take lim.toNat ∧
    (q ∈ getOrphanedRequests st lim off →
      q ∈ st.requests ∧ ∀ p ∈ st.responses, p.requestID ≠ q.requestID) := by
  have hmem : q ∈ orphanedFull st ↔
      q ∈ st.requests ∧ ∀ p ∈ st.responses, p.requestID ≠ q.requestID := by
    unfold orphanedFull
    rw [List.mem_insertionSort, List.mem_filter]
    simp [isOrphan, List.any_eq_true]
  refine ⟨hmem, List.sorted_insertionSort _ _, rfl, fun hq => hmem.mp ?_⟩
  unfold getOrphanedRequests paginate at hq
  exact List.mem_of_mem_drop (List.mem_of_mem_take hq)

/-- Witness for C9: in a store with one orphaned and one matched request, the
orphaned one is in the orphan query's result. -/
theorem c9_orphans_exact_witness : reqOrphan ∈ orphanedFull storeOrphanMix :=
  (c9_orphans_exact storeOrphanMix reqOrphan 50 0).1.mpr ⟨by decide, by decide⟩

/-- Claim C10: every internal-error path (no target, forward construction
failure, transport failure, upstream read failure) synthesizes its envelope
through `handleError`, which hard-codes `ID: nil`; the envelope therefore
always starts with `id` bound to `null`, and the error body handed back to
the caller never depends on the inbound request's body or parsed content (in
particular not on its JSON-RPC `id`). -/
theorem c10_error_envelope_id_null (env : PipelineEnv) (pm pm2 : Option String)
    (b b2 hj hj2 msg m2 : String) (o : UpstreamOutcome) :
    goHasPrefix (jsonrpcErrorBody msg) ("\x7b\"id\":null,") = true ∧
    (env.targetURL = "" →
      (runPipeline env pm b hj o).caller.body =
        jsonrpcErrorBody ("No target URL configured") ∧
      (runPipeline env pm b hj o).dbResponses.map (fun r => r.response) =
        [some (jsonrpcErrorBody ("No target URL configured"))]) ∧
    (env.targetURL ≠ "" →
      (runPipeline env pm b hj (.transportFailure m2)).caller.body =
        jsonrpcErrorBody ("Failed to forward request: " ++ m2) ∧
      (runPipeline env pm b hj (.constructFailure)).caller.body =
        jsonrpcErrorBody ("Failed to create forward request") ∧
      (runPipeline env pm b hj (.readFailure)).caller.body =
        jsonrpcErrorBody ("Failed to read response")) ∧
    (runPipeline env pm b hj o).caller.body =
      (runPipeline env pm2 b2 hj2 o).caller.body := by
  refine ⟨?_, ?_, ?_, ?_⟩
  · unfold jsonrpcErrorBody
    apply goHasPrefix_append_left
    apply goHasPrefix_append_left
    decide
  · intro h
    constructor <;> simp [runPipeline, handleError, h]
  · intro h
    refine ⟨?_, ?_, ?_⟩ <;> simp [runPipeline, handleError, h]
  · by_cases h : env.targetURL = ""
    · simp [runPipeline, handleError, h]
    · cases o <;> simp [runPipeline, handleError, h]

/-- Witness for C10: with no target configured, two runs with different
request bodies and parsed methods both return the `id:null` envelope. -/
theorem c10_error_envelope_id_null_witness :
    (runPipeline envNoTarget (some ("ping")) pingReqBody ("\x7b\x7d")
        (.success 200 [] ("x"))).caller.body =
      jsonrpcErrorBody ("No target URL configured") :=
  ((c10_error_envelope_id_null envNoTarget (some ("ping")) (some ("other"))
    pingReqBody ("\x7b\"id\":2\x7d") ("\x7b\x7d") ("\x7b\x7d") ("m") ("m")
    (.success 200 [] ("x"))).2.1 (by decide)).1

end Golf
